import Mathlib

/-
Verification development for the domain-record CRUD backend
(controllers/domainController.js plus routes/domainRoutes.js).

The controller is embedded shallowly: the document database is a list of
domain documents, the uploads directory is a list of file paths, and the
multipart middleware (multer.diskStorage) is modelled by the storage
configuration found at the top of the controller file.  Relative paths such
as `uploads/x` stand for the resolved paths the code builds with
path.join(__dirname, "..", p); the join and path.normalize are modelled as
the identity on these already-relative paths.
-/

/-- Errors that a handler can let escape, or catch.  `objectIdParse`
models the MongoDB driver ObjectId constructor rejecting a malformed
identifier; `referenceError` models a JavaScript ReferenceError raised by
reading an undeclared variable. -/
inductive JsError where
  | objectIdParse (input : String)
  | referenceError (name : String)
deriving Repr, DecidableEq

/-- Human-readable text of a thrown error, as `error.message` would show. -/
def errMessage : JsError → String
  | .objectIdParse s => "Argument passed in must be a string of 12 bytes or a string of 24 hex characters or an integer: " ++ s
  | .referenceError n => n ++ " is not defined"

/-- A domain document as inserted by createDomain: the driver-assigned
identifier plus the six fields of the `domainData` object. -/
structure Domain where
  _id : String
  title : String
  url : String
  description : String
  fileName : String
  mapperFile_Url : String
  imagePath : String
deriving Repr, DecidableEq

/-- The world the controller mutates: the `domains` collection, the set of
paths present in the uploads directory, the set of paths that exist but
cannot be unlinked (modelling an unremovable file), and the identifier the
database driver will assign to the next inserted document. -/
structure St where
  db : List Domain
  disk : List String
  locked : List String
  fresh : String
deriving Repr, DecidableEq

/-- The JSON payload a handler sends back (res.json), or the file it
streams (res.download / res.sendFile).  Fields absent from a given
response are `none`. -/
structure Response where
  status : Option String := none
  message : Option String := none
  error : Option String := none
  domain : Option Domain := none
  domains : Option (List Domain) := none
  fileSent : Option String := none
deriving Repr, DecidableEq

/-- An uploaded file as the multipart request carries it (its original
client-side name); multer then decides the stored name. -/
structure Upload where
  originalname : String
deriving Repr, DecidableEq

/-- An entry of req.files after multer stored it: the chosen filename and
the path inside the uploads directory. -/
structure StoredFile where
  filename : String
  path : String
deriving Repr, DecidableEq

/-- Split a character list at every occurrence of `sep` (the semantics of
String.splitOn for a one-character separator, done structurally so the
kernel can evaluate it). -/
def splitOnChar (sep : Char) : List Char → List (List Char)
  | [] => [[]]
  | c :: cs =>
    let r := splitOnChar sep cs
    if c = sep then [] :: r
    else
      match r with
      | [] => [[c]]
      | h :: t => (c :: h) :: t

/-- Node path.basename without an extension argument restricted to the
last path segment: everything after the final slash. -/
def lastSegment (p : String) : String :=
  ⟨(splitOnChar '/' p.data).getLastD p.data⟩

/-- Node path.extname: the extension of the last path segment, from its
final dot onwards; a name with no dot, or whose only dot is its leading
character, has extension "". -/
def extname (p : String) : String :=
  match splitOnChar '.' (lastSegment p).data with
  | [] => ""
  | [_] => ""
  | [[], _] => ""
  | parts => ⟨'.' :: parts.getLastD []⟩

/-- Node path.basename with an extension argument: the last path segment,
with `ext` stripped when it is a proper suffix of that segment. -/
def basename (p : String) (ext : String) : String :=
  let b := lastSegment p
  if ext != "" && b != ext && ext.data.isSuffixOf b.data then
    ⟨b.data.take (b.data.length - ext.data.length)⟩
  else b

/-- JavaScript String.prototype.trim, structurally on the character list. -/
def trimChars (l : List Char) : List Char :=
  ((l.dropWhile Char.isWhitespace).reverse.dropWhile Char.isWhitespace).reverse

/-- JavaScript string coercion of a possibly-missing form field, as used by
the template literal in the storage filename callback: an absent field
interpolates as the text "undefined". -/
def jsString : Option String → String
  | none => "undefined"
  | some s => s

/-- JavaScript `x || d` on a possibly-missing string field: the empty
string and an absent field are both falsy and fall back to `d`. -/
def jsOr (x : Option String) (d : String) : String :=
  match x with
  | none => d
  | some s => if s = "" then d else s

/-- JavaScript `!x` on a possibly-missing string field. -/
def falsy (x : Option String) : Bool :=
  match x with
  | none => true
  | some s => s = ""

/-- The `!field || field.trim() === ""` test of createDomain validation. -/
def blank (x : Option String) : Bool :=
  match x with
  | none => true
  | some s => trimChars s.data = []

/-- The filename callback of multer.diskStorage: images keep their
original basename unprefixed, other files are prefixed with the title
field from the request body via a template literal. -/
def storageFilename (title : Option String) (isImage : Bool) (u : Upload) : String :=
  if isImage then basename u.originalname ""
  else jsString title ++ "_" ++ u.originalname

/-- The multer disk-storage step for one optional upload: it stores the
file under the configured name inside the uploads directory (overwriting
any file already at that path) and yields the req.files entry. -/
def storeUpload (title : Option String) (isImage : Bool) (u : Option Upload)
    (disk : List String) : Option StoredFile × List String :=
  match u with
  | none => (none, disk)
  | some up =>
    let name := storageFilename title isImage up
    let p := "uploads/" ++ name
    (some { filename := name, path := p }, if p ∈ disk then disk else p :: disk)

/-- Modelled from the spec: `connection.getObjectId` lives in
utility/connection.js, which is not among the provided sources.  Per the
§6 collaborator interface ("identifier parsing/equality") it wraps the
MongoDB driver ObjectId constructor, which accepts a 24-character
hexadecimal string and throws on any other string. -/
def isValidObjectId (s : String) : Bool :=
  s.length == 24 && s.toList.all (fun c => c.isDigit || ('a' ≤ c && c ≤ 'f') || ('A' ≤ c && c ≤ 'F'))

/-- Modelled from the spec: identifier parsing, throwing `objectIdParse`
on a malformed identifier (see `isValidObjectId`). -/
def getObjectId (s : String) : Except JsError String :=
  if isValidObjectId s then .ok s else .error (.objectIdParse s)

/-- findOne with filter by title.  The driver serializes an undefined
filter value as null, which matches no document carrying a string title,
so an absent title field matches nothing. -/
def findByTitle (db : List Domain) (t : Option String) : Option Domain :=
  match t with
  | some s => db.find? (fun d => d.title = s)
  | none => none

/-- findOne with filter by the parsed identifier. -/
def findById (db : List Domain) (i : String) : Option Domain :=
  db.find? (fun d => d._id = i)

/-- Replace the first element satisfying `p` by its image under `f`
(semantics of a Mongo updateOne / findOneAndDelete touching one doc). -/
def updateFirst (p : Domain → Bool) (f : Domain → Domain) : List Domain → List Domain
  | [] => []
  | d :: ds => if p d then f d :: ds else d :: updateFirst p f ds

/-- Remove the first element satisfying `p` (findOneAndDelete). -/
def removeFirst (p : Domain → Bool) : List Domain → List Domain
  | [] => []
  | d :: ds => if p d then ds else d :: removeFirst p ds

/-- The fields of the `updatedData` object built by updateDomain: the
three string fields are always present in the $set document; the file
fields only when the corresponding branch assigned them. -/
structure UpdatedData where
  url : String
  description : String
  title : String
  fileName : Option String := none
  mapperFile_Url : Option String := none
  imagePath : Option String := none
deriving Repr, DecidableEq

/-- The effect of `$set: updatedData` on one document. -/
def applySet (d : Domain) (u : UpdatedData) : Domain :=
  { d with
    url := u.url
    description := u.description
    title := u.title
    fileName := u.fileName.getD d.fileName
    mapperFile_Url := u.mapperFile_Url.getD d.mapperFile_Url
    imagePath := u.imagePath.getD d.imagePath }

/-- updateOne with filter `{ title }` where `title` is the raw request
body field: an absent field matches no stored document (see
`findByTitle`); otherwise the first document with that exact title is
updated. -/
def updateOneByTitle (db : List Domain) (t : Option String) (u : UpdatedData) : List Domain :=
  match t with
  | none => db
  | some s => updateFirst (fun d => d.title = s) (fun d => applySet d u) db

/-- The body of a createDomain request: the three form fields and the two
optional uploads named file and image. -/
structure CreateReq where
  title : Option String := none
  url : Option String := none
  description : Option String := none
  file : Option Upload := none
  image : Option Upload := none
deriving Repr, DecidableEq

/-- createDomain, third controller draft (the one carrying the field
validation the spec describes, source lines 1007 to 1087): multer stores
the uploads first, then the handler checks file presence, blank fields,
and duplicate title before inserting the document. -/
def createDomain (req : CreateReq) (st : St) : Response × St :=
  let (file, disk1) := storeUpload req.title false req.file st.disk
  let (image, disk2) := storeUpload req.title true req.image disk1
  let st1 : St := { st with disk := disk2 }
  match file, image with
  | some f, some i =>
    if blank req.title then
      ({ status := some "failed", message := some "title field should not be empty or null." }, st1)
    else if blank req.url then
      ({ status := some "failed", message := some "url field should not be empty or null." }, st1)
    else if blank req.description then
      ({ status := some "failed", message := some "description field should not be empty or null." }, st1)
    else
      match findByTitle st1.db req.title with
      | some _ =>
        ({ status := some "failed", message := some "Domain already exists." }, st1)
      | none =>
        let doc : Domain := {
          _id := st1.fresh
          title := jsString req.title
          url := jsString req.url
          description := jsString req.description
          fileName := basename f.filename (extname f.filename)
          mapperFile_Url := f.path
          imagePath := i.path }
        ({ status := some "success", message := some "Domain created successfully." },
         { st1 with db := st1.db ++ [doc] })
  | _, _ => ({ message := some "Both file and image are required" }, st1)

/-- getDomain (source lines 114 to 129).  The handler has no try/catch,
so a malformed identifier makes the ObjectId parse error escape the
handler as an uncaught fault, modelled by `Except.error`. -/
def getDomain (id : String) (st : St) : Except JsError (Response × St) :=
  match getObjectId id with
  | .error e => .error e
  | .ok oid =>
    match findById st.db oid with
    | none => .ok ({ status := some "failed", message := some "domain not found with the given id." }, st)
    | some d => .ok ({ status := some "success", domain := some d }, st)

/-- getAllDomains (source lines 132 to 145): returns every document; the
falsiness test on the array never fires because an array is truthy. -/
def getAllDomains (st : St) : Response × St :=
  ({ domains := some st.db }, st)

/-- One iteration of the deleteFiles loop: fs.promises.access throws when
the path is absent, fs.promises.unlink throws when the file is
unremovable; on success the file disappears from the uploads set. -/
def tryUnlink (p : String) (st : St) : Bool × St :=
  if p ∈ st.disk && p ∉ st.locked then (true, { st with disk := st.disk.erase p })
  else (false, st)

/-- The error message fs reports for a failed deletion attempt. -/
def unlinkErr (p : String) (st : St) : String :=
  if p ∈ st.disk then "EPERM: operation not permitted, unlink " ++ p
  else "ENOENT: no such file or directory, access " ++ p

/-- One iteration of the deleteFiles loop: carry the all-success flag and
the first failure message while attempting the unlink. -/
def deleteFilesStep (acc : (Bool × Option String) × St) (p : String) : (Bool × Option String) × St :=
  let r := tryUnlink p acc.2
  if r.1 then (acc.1, r.2)
  else ((false, match acc.1.2 with
                | some e => some e
                | none => some (unlinkErr p acc.2)), r.2)

/-- deleteFiles (source lines 206 to 250): attempts every path, collects
per-path outcomes, and reports failure carrying the first failed error. -/
def deleteFiles (paths : List String) (st : St) : Response × St :=
  let out := paths.foldl deleteFilesStep ((true, none), st)
  if out.1.1 then
    ({ status := some "success", message := some "All files successfully deleted" }, out.2)
  else
    ({ status := some "failed", message := some ("Error deleting file: " ++ (out.1.2.getD "")) }, out.2)

/-- deleteDomain (source lines 148 to 203): fetch by id, delete both
files, and only when both deletions succeeded remove the document.  The
handler has no try/catch, so a malformed identifier escapes. -/
def deleteDomain (id : String) (st : St) : Except JsError (Response × St) :=
  match getObjectId id with
  | .error e => .error e
  | .ok oid =>
    match findById st.db oid with
    | none => .ok ({ status := some "failed", message := some "Domain not found with the given id." }, st)
    | some domain =>
      let r := deleteFiles [domain.mapperFile_Url, domain.imagePath] st
      if r.1.status = some "failed" then
        .ok ({ status := some "failed", message := r.1.message }, r.2)
      else
        match findById r.2.db oid with
        | none => .ok ({ status := some "failed", message := some "Error deleting the domain document." }, r.2)
        | some _ =>
          .ok ({ status := some "success", message := some "Domain and its associated files deleted successfully." },
               { r.2 with db := removeFirst (fun d => d._id = oid) r.2.db })

/-- The body of an updateDomain request. -/
structure UpdateReq where
  id : Option String := none
  title : Option String := none
  url : Option String := none
  description : Option String := none
  file : Option Upload := none
  image : Option Upload := none
deriving Repr, DecidableEq

/-- req.files as the update handler receives it from multer. -/
structure UpdateFiles where
  file : Option StoredFile := none
  image : Option StoredFile := none
deriving Repr, DecidableEq

/-- One old-file deletion block of updateDomain (source lines 327 to 348
for the mapper file, 350 to 370 for the image): when a replacement was
adopted and the stored path is truthy, a missing old file or a failing
unlink aborts the whole handler with the given failure response. -/
def deleteOld (shouldDelete : Bool) (p : String) (failMsg : String) (missingMsg : String)
    (noun : String) (disk locked : List String) : Except Response (List String) :=
  if shouldDelete then
    if p ∈ disk then
      if p ∈ locked then
        .error { status := some "failed", message := some failMsg,
                 error := some ("EPERM: operation not permitted, unlink " ++ p) }
      else .ok (disk.erase p)
    else
      .error { status := some "failed", message := some missingMsg,
               error := some (noun ++ " at " ++ p ++ " does not exist on the server.") }
  else .ok disk

/-- The updateDomain handler body after multer ran (first controller
draft, source lines 266 to 388): id check, fetch by id, merge fields with
fallback, mapper-file and image replacement decisions by base-name
comparison, old-file deletions that abort on failure, and the final
updateOne keyed by the raw request title. -/
def updateHandler (req : UpdateReq) (files : UpdateFiles) (st : St) : Response × St :=
  if falsy req.id then
    ({ status := some "failed", message := some "id is required to update the domain." }, st)
  else
    match getObjectId (req.id.getD "") with
    | .error e =>
      ({ status := some "failed", message := some "Server error", error := some (errMessage e) }, st)
    | .ok oid =>
      match findById st.db oid with
      | none => ({ status := some "failed", message := some "Domain not found with the given id." }, st)
      | some domain =>
        let base : UpdatedData := {
          url := jsOr req.url domain.url
          description := jsOr req.description domain.description
          title := jsOr req.title domain.title }
        let fileStep : UpdatedData × Bool :=
          match files.file with
          | none => (base, false)
          | some f =>
            let newFileName := basename f.filename (extname f.filename)
            let oldFileName := basename domain.fileName (extname domain.fileName)
            if newFileName = oldFileName then
              ({ base with mapperFile_Url := some domain.mapperFile_Url }, false)
            else
              ({ base with fileName := some newFileName, mapperFile_Url := some f.path }, true)
        let imageStep : UpdatedData × Bool :=
          match files.image with
          | none => (fileStep.1, false)
          | some i =>
            let newImageName := basename i.filename (extname i.filename)
            let oldImageName := basename domain.imagePath (extname domain.imagePath)
            if newImageName = oldImageName then
              ({ fileStep.1 with imagePath := some domain.imagePath }, false)
            else
              ({ fileStep.1 with imagePath := some i.path }, true)
        match deleteOld (fileStep.2 && domain.mapperFile_Url != "") domain.mapperFile_Url
            "Error deleting old file." "Old file does not exist." "File" st.disk st.locked with
        | .error resp => (resp, st)
        | .ok disk1 =>
          match deleteOld (imageStep.2 && domain.imagePath != "") domain.imagePath
              "Error deleting old image." "Old image does not exist." "Image" disk1 st.locked with
          | .error resp => (resp, { st with disk := disk1 })
          | .ok disk2 =>
            ({ status := some "success", message := some "Domain updated successfully." },
             { st with db := updateOneByTitle st.db req.title imageStep.1, disk := disk2 })

/-- updateDomain end to end: multer stores any uploads (naming them with
the update request title field), then the handler runs. -/
def updateDomain (req : UpdateReq) (st : St) : Response × St :=
  let f := storeUpload req.title false req.file st.disk
  let i := storeUpload req.title true req.image f.2
  updateHandler req { file := f.1, image := i.1 } { st with disk := i.2 }

/-- downloadMapperFile (source lines 391 to 433): fetch by id inside a
try/catch, check the stored path on disk, then stream the file. -/
def downloadMapperFile (id : String) (st : St) : Response × St :=
  match getObjectId id with
  | .error e =>
    ({ status := some "failed", message := some "Server error", error := some (errMessage e) }, st)
  | .ok oid =>
    match findById st.db oid with
    | none => ({ status := some "failed", message := some "Domain not found." }, st)
    | some d =>
      if d.mapperFile_Url ∈ st.disk then ({ fileSent := some d.mapperFile_Url }, st)
      else ({ status := some "failed", message := some "File not found on the server." }, st)

/-- renderImage (source lines 435 to 475): like the download handler but
for the image; its catch block reads a variable named error that the
catch clause never bound, so when anything in the try block throws, the
catch itself raises a ReferenceError that escapes the handler. -/
def renderImage (id : String) (st : St) : Except JsError (Response × St) :=
  match getObjectId id with
  | .error _ => .error (.referenceError "error")
  | .ok oid =>
    match findById st.db oid with
    | none => .ok ({ status := some "failed", message := some "Domain not found with given id." }, st)
    | some d =>
      if d.imagePath ∈ st.disk then .ok ({ fileSent := some d.imagePath }, st)
      else .ok ({ status := some "failed", message := some "Image not found on the server." }, st)

/-- jsOr of a supplied value over itself is that value. -/
theorem jsOr_some_self (s : String) : jsOr (some s) s = s := by
  simp only [jsOr]
  split <;> rfl

/-- jsOr never produces the empty string unless the fallback is empty. -/
theorem jsOr_eq_empty (x : Option String) (s : String) (h : jsOr x s = "") : s = "" := by
  match x with
  | none => exact h
  | some t =>
    simp only [jsOr] at h
    split at h
    · exact h
    · exact absurd h (by assumption)

/-- updateFirst is the identity when no element satisfies the predicate. -/
theorem updateFirst_of_forall_false (p : Domain → Bool) (f : Domain → Domain)
    (l : List Domain) (h : ∀ x ∈ l, p x = false) : updateFirst p f l = l := by
  induction l with
  | nil => rfl
  | cons a as ih =>
    unfold updateFirst
    rw [h a (List.mem_cons_self a as)]
    simp only [Bool.false_eq_true, if_false]
    rw [ih (fun x hx => h x (List.mem_cons_of_mem a hx))]

/-- Every element of updateFirst comes from the original list, possibly
transformed by f. -/
theorem mem_updateFirst (p : Domain → Bool) (f : Domain → Domain)
    (l : List Domain) (x : Domain) (hx : x ∈ updateFirst p f l) :
    x ∈ l ∨ ∃ y, y ∈ l ∧ x = f y := by
  induction l with
  | nil => simp [updateFirst] at hx
  | cons a as ih =>
    unfold updateFirst at hx
    by_cases hp : p a
    · rw [if_pos hp] at hx
      rcases List.mem_cons.mp hx with h | h
      · exact Or.inr ⟨a, List.mem_cons_self a as, h⟩
      · exact Or.inl (List.mem_cons_of_mem a h)
    · rw [if_neg hp] at hx
      rcases List.mem_cons.mp hx with h | h
      · exact Or.inl (h ▸ List.mem_cons_self a as)
      · rcases ih h with h2 | ⟨y, hy, hxy⟩
        · exact Or.inl (List.mem_cons_of_mem a h2)
        · exact Or.inr ⟨y, List.mem_cons_of_mem a hy, hxy⟩

/-- Unfolding equation for findById on a cons cell. -/
theorem findById_cons (x : Domain) (xs : List Domain) (i : String) :
    findById (x :: xs) i = if x._id = i then some x else findById xs i := by
  unfold findById
  by_cases h : x._id = i
  · rw [if_pos h, List.find?_cons_of_pos xs (decide_eq_true h)]
  · rw [if_neg h, List.find?_cons_of_neg xs (by simpa using h)]

/-- Unfolding equation for updateFirst on a cons cell. -/
theorem updateFirst_cons (p : Domain → Bool) (f : Domain → Domain) (x : Domain) (xs : List Domain) :
    updateFirst p f (x :: xs) = if p x then f x :: xs else x :: updateFirst p f xs := rfl

/-- Unfolding equation for removeFirst on a cons cell. -/
theorem removeFirst_cons (p : Domain → Bool) (x : Domain) (xs : List Domain) :
    removeFirst p (x :: xs) = if p x then xs else x :: removeFirst p xs := rfl

/-- The document findById returns carries the looked-up identifier. -/
theorem findById_id (l : List Domain) (i : String) (d : Domain)
    (h : findById l i = some d) : d._id = i := by
  unfold findById at h
  simpa using List.find?_some h

/-- The document findById returns belongs to the collection. -/
theorem findById_mem (l : List Domain) (i : String) (d : Domain)
    (h : findById l i = some d) : d ∈ l := by
  unfold findById at h
  exact List.mem_of_find?_eq_some h

/-- In a collection with pairwise distinct identifiers and pairwise
distinct titles, updating the first document bearing the title of the
document that findById returned updates exactly that document, provided
the transformation keeps the identifier. -/
theorem findById_updateFirst (i : String) (d : Domain) (f : Domain → Domain)
    (hf : (f d)._id = d._id) :
    ∀ l : List Domain, (l.map Domain._id).Nodup → (l.map Domain.title).Nodup →
      findById l i = some d →
      findById (updateFirst (fun x => x.title = d.title) f l) i = some (f d) := by
  intro l
  induction l with
  | nil =>
    intro _ _ hfind
    simp [findById] at hfind
  | cons x xs ih =>
    intro hids htitles hfind
    have hdi : d._id = i := findById_id _ _ _ hfind
    rw [findById_cons] at hfind
    by_cases hxi : x._id = i
    · rw [if_pos hxi] at hfind
      have hxd : x = d := by injection hfind
      subst hxd
      rw [updateFirst_cons, if_pos (by simp), findById_cons, if_pos (by rw [hf]; exact hxi)]
    · rw [if_neg hxi] at hfind
      have hdmem : d ∈ xs := findById_mem _ _ _ hfind
      have hxt : ¬ (x.title = d.title) := by
        intro he
        rw [List.map_cons] at htitles
        exact (List.nodup_cons.mp htitles).1 (he ▸ List.mem_map_of_mem Domain.title hdmem)
      rw [updateFirst_cons, if_neg (by simpa using hxt), findById_cons, if_neg hxi]
      have hids2 : (xs.map Domain._id).Nodup := by
        rw [List.map_cons] at hids
        exact (List.nodup_cons.mp hids).2
      have htitles2 : (xs.map Domain.title).Nodup := by
        rw [List.map_cons] at htitles
        exact (List.nodup_cons.mp htitles).2
      exact ih hids2 htitles2 hfind

/-- After removing the first document bearing an identifier from a
collection with pairwise distinct identifiers, no document bears it. -/
theorem findById_removeFirst (i : String) :
    ∀ l : List Domain, (l.map Domain._id).Nodup →
      findById (removeFirst (fun x => x._id = i) l) i = none := by
  intro l
  induction l with
  | nil =>
    intro _
    rfl
  | cons x xs ih =>
    intro hids
    rw [List.map_cons] at hids
    by_cases hxi : x._id = i
    · rw [removeFirst_cons, if_pos (by simpa using hxi)]
      unfold findById
      refine List.find?_eq_none.mpr ?_
      intro a ha hpa
      have hai : a._id = i := of_decide_eq_true hpa
      have : x._id ∈ xs.map Domain._id := by
        rw [hxi, ← hai]
        exact List.mem_map_of_mem Domain._id ha
      exact (List.nodup_cons.mp hids).1 this
    · rw [removeFirst_cons, if_neg (by simpa using hxi), findById_cons, if_neg hxi]
      exact ih (List.nodup_cons.mp hids).2

/-- The path just stored by the multer step is on disk. -/
theorem mem_write_self (p : String) (disk : List String) :
    p ∈ (if p ∈ disk then disk else p :: disk) := by
  split
  · assumption
  · exact List.mem_cons_self p disk

/-- A path already on disk survives the multer write of another path. -/
theorem mem_write_of_mem (q p : String) (disk : List String) (h : q ∈ disk) :
    q ∈ (if p ∈ disk then disk else p :: disk) := by
  split
  · exact h
  · exact List.mem_cons_of_mem p h

/-- The multer write preserves distinctness of the disk paths. -/
theorem nodup_write (p : String) (disk : List String) (h : disk.Nodup) :
    (if p ∈ disk then disk else p :: disk).Nodup := by
  split
  · exact h
  · next hnp => exact List.nodup_cons.mpr ⟨hnp, h⟩

/-- A well-formed ObjectId used by the concrete scenarios below. -/
def exId : String := "0123456789abcdef01234567"

/-- A stored domain used by the concrete scenarios below: created with
title A from a mapper upload data.xlsx and an image img.png. -/
def exDomain : Domain :=
  { _id := exId, title := "A", url := "u", description := "old",
    fileName := "A_data", mapperFile_Url := "uploads/A_data.xlsx", imagePath := "uploads/img.png" }

/-- A state holding exDomain with both of its files on disk. -/
def exSt : St :=
  { db := [exDomain], disk := ["uploads/A_data.xlsx", "uploads/img.png"],
    locked := [], fresh := "ffffffffffffffffffffffff" }

/-- Claim C9: no operation lets a failure escape as an uncaught fault.
The code refutes this: getDomain and deleteDomain have no try/catch, so
the identifier-parse error on a malformed id escapes them, and the
renderImage catch block reads an unbound variable named error, so it
rethrows a ReferenceError instead of answering. -/
theorem C9_uncaught_faults_escape :
    getDomain "zzz" exSt = Except.error (JsError.objectIdParse "zzz")
    ∧ deleteDomain "zzz" exSt = Except.error (JsError.objectIdParse "zzz")
    ∧ renderImage "zzz" exSt = Except.error (JsError.referenceError "error") :=
  ⟨rfl, rfl, rfl⟩

/-- Claim C2: an update supplying only id and description should change
exactly the description.  The code refutes this: the persistence step
filters by the absent title field, matches no document, and changes
nothing at all while still answering success. -/
theorem C2_partial_update_is_silent_noop :
    (updateDomain { id := some exId, description := some "new words" } exSt).1.status = some "success"
    ∧ (updateDomain { id := some exId, description := some "new words" } exSt).2 = exSt
    ∧ exDomain.description ≠ "new words" := by
  decide

/-- Claim C1, counterexample: a successful update that omits the title
leaves the document identified by the given id without the merged
values (the description stays old), refuting the claim as stated. -/
theorem C1_counterexample :
    (updateDomain { id := some exId, description := some "merged" } exSt).1.status = some "success"
    ∧ findById (updateDomain { id := some exId, description := some "merged" } exSt).2.db exId = some exDomain
    ∧ exDomain.description ≠ "merged" := by
  decide

/-- Claim C3, counterexample: an update supplying a mapper file with a
differing base name but omitting the title removes the old file from
disk yet leaves the record mapperFile_Url unreplaced, refuting the claim
that the record is updated whenever the base names differ. -/
theorem C3_counterexample :
    (updateDomain { id := some exId, file := some { originalname := "new.xlsx" } } exSt).1.status = some "success"
    ∧ "uploads/A_data.xlsx" ∉ (updateDomain { id := some exId, file := some { originalname := "new.xlsx" } } exSt).2.disk
    ∧ (updateDomain { id := some exId, file := some { originalname := "new.xlsx" } } exSt).2.db = [exDomain] := by
  decide

/-- The blank-title create request of the C5 scenario. -/
def c5Req : CreateReq :=
  { title := some " ", url := some "u", description := some "x",
    file := some { originalname := "data.xlsx" }, image := some { originalname := "img.png" } }

/-- The empty starting state of the C5 scenario. -/
def c5St : St := { db := [], disk := [], locked := [], fresh := exId }

/-- Claim C5, counterexample: a create call with a blank title and both
files supplied fails validation and inserts nothing, but the upload step
has already written both files to disk, refuting the part of the claim
saying no files are written. -/
theorem C5_counterexample :
    (createDomain c5Req c5St).1.message = some "title field should not be empty or null."
    ∧ (createDomain c5Req c5St).2.db = []
    ∧ (createDomain c5Req c5St).2.disk = ["uploads/img.png", "uploads/ _data.xlsx"] := by
  decide

/-- The duplicate-title create request of the C6 scenario. -/
def c6Req : CreateReq :=
  { title := some "A", url := some "u2", description := some "x2",
    file := some { originalname := "b.xlsx" }, image := some { originalname := "j.png" } }

/-- Claim C6, counterexample: creating with an already-used title fails
with the conflict message and inserts nothing, but the upload step has
already written a second pair of files to disk, refuting the part of the
claim saying no second file pair is created. -/
theorem C6_counterexample :
    (createDomain c6Req exSt).1.message = some "Domain already exists."
    ∧ (createDomain c6Req exSt).2.db = exSt.db
    ∧ "uploads/A_b.xlsx" ∉ exSt.disk
    ∧ "uploads/A_b.xlsx" ∈ (createDomain c6Req exSt).2.disk
    ∧ "uploads/j.png" ∉ exSt.disk
    ∧ "uploads/j.png" ∈ (createDomain c6Req exSt).2.disk := by
  decide

/-- Claim C5 (amended): when both files are supplied and title, url, or
description is missing or blank after trimming, createDomain fails with
the message naming the first blank field in the order title, url,
description, inserts no document, and the two uploaded files have
already been written to disk by the upload step. -/
theorem C5_blank_field_validation (req : CreateReq) (st : St) (u v : Upload)
    (hf : req.file = some u) (hi : req.image = some v)
    (hb : (blank req.title || blank req.url || blank req.description) = true) :
    (createDomain req st).1.status = some "failed"
    ∧ (createDomain req st).1.message
        = some (if blank req.title then "title field should not be empty or null."
            else if blank req.url then "url field should not be empty or null."
            else "description field should not be empty or null.")
    ∧ (createDomain req st).2.db = st.db
    ∧ (createDomain req st).2.disk
        = (storeUpload req.title true (some v) (storeUpload req.title false (some u) st.disk).2).2 := by
  by_cases h1 : blank req.title
  · simp [createDomain, hf, hi, storeUpload, h1]
  · by_cases h2 : blank req.url
    · simp [createDomain, hf, hi, storeUpload, h1, h2]
    · have h3 : blank req.description := by
        simp [h1, h2] at hb
        exact hb
      simp [createDomain, hf, hi, storeUpload, h1, h2, h3]

/-- The blank-url create request of the C5 witness scenario. -/
def c5wReq : CreateReq :=
  { title := some "B", url := some "  ", description := some "x",
    file := some { originalname := "d.xlsx" }, image := some { originalname := "i.png" } }

/-- Witness for C5_blank_field_validation at a concrete call with a
blank url. -/
theorem C5_witness : (createDomain c5wReq c5St).1.status = some "failed" :=
  (C5_blank_field_validation c5wReq c5St { originalname := "d.xlsx" } { originalname := "i.png" }
    rfl rfl (by decide)).1

/-- Claim C6 (amended): creating with both files supplied, nonblank
fields, and a title already borne by a stored domain fails with the
conflict message and inserts no document; the two uploaded files have
nevertheless been written to disk by the upload step. -/
theorem C6_duplicate_title_conflict (req : CreateReq) (st : St) (u v : Upload) (e : Domain)
    (hf : req.file = some u) (hi : req.image = some v)
    (h1 : blank req.title = false) (h2 : blank req.url = false) (h3 : blank req.description = false)
    (hdup : findByTitle st.db req.title = some e) :
    (createDomain req st).1.status = some "failed"
    ∧ (createDomain req st).1.message = some "Domain already exists."
    ∧ (createDomain req st).2.db = st.db
    ∧ (createDomain req st).2.disk
        = (storeUpload req.title true (some v) (storeUpload req.title false (some u) st.disk).2).2 := by
  simp [createDomain, hf, hi, storeUpload, h1, h2, h3, hdup]

/-- The duplicate-title create request of the C6 witness scenario. -/
def c6wReq : CreateReq :=
  { title := some "A", url := some "w", description := some "y",
    file := some { originalname := "c.xlsx" }, image := some { originalname := "k.png" } }

/-- Witness for C6_duplicate_title_conflict at a concrete call reusing
the stored title A. -/
theorem C6_witness : (createDomain c6wReq exSt).1.message = some "Domain already exists." :=
  (C6_duplicate_title_conflict c6wReq exSt { originalname := "c.xlsx" } { originalname := "k.png" }
    exDomain rfl rfl (by decide) (by decide) (by decide) (by decide)).2.1

/-- Claim C7: on a successful create, the mapper file is stored under the
name title underscore originalroot, the image keeps its unprefixed
original basename, the document fileName is the mapper stored name with
its extension removed, and the document path fields point at the two
stored files, both of which are on disk afterwards. -/
theorem C7_create_success_naming (st : St) (t url0 desc0 : String) (u v : Upload)
    (ht : trimChars t.data ≠ []) (hu : trimChars url0.data ≠ []) (hd : trimChars desc0.data ≠ [])
    (hdup : findByTitle st.db (some t) = none) :
    (createDomain { title := some t, url := some url0, description := some desc0, file := some u, image := some v } st).1.status = some "success"
    ∧ (createDomain { title := some t, url := some url0, description := some desc0, file := some u, image := some v } st).2.db
        = st.db ++ [{ _id := st.fresh, title := t, url := url0, description := desc0,
                      fileName := basename (t ++ "_" ++ u.originalname) (extname (t ++ "_" ++ u.originalname)),
                      mapperFile_Url := "uploads/" ++ (t ++ "_" ++ u.originalname),
                      imagePath := "uploads/" ++ basename v.originalname "" }]
    ∧ ("uploads/" ++ (t ++ "_" ++ u.originalname)) ∈ (createDomain { title := some t, url := some url0, description := some desc0, file := some u, image := some v } st).2.disk
    ∧ ("uploads/" ++ basename v.originalname "") ∈ (createDomain { title := some t, url := some url0, description := some desc0, file := some u, image := some v } st).2.disk := by
  have h1 : blank (some t) = false := by simp [blank, ht]
  have h2 : blank (some url0) = false := by simp [blank, hu]
  have h3 : blank (some desc0) = false := by simp [blank, hd]
  refine ⟨?_, ?_, ?_, ?_⟩
  · simp [createDomain, storeUpload, storageFilename, jsString, h1, h2, h3, hdup]
  · simp [createDomain, storeUpload, storageFilename, jsString, h1, h2, h3, hdup]
  · simp only [createDomain, storeUpload, storageFilename, jsString, h1, h2, h3, hdup]
    simp only [Bool.false_eq_true, if_false, if_neg]
    exact mem_write_of_mem _ _ _ (mem_write_self _ _)
  · simp only [createDomain, storeUpload, storageFilename, jsString, h1, h2, h3, hdup]
    simp only [Bool.false_eq_true, if_false, if_neg]
    exact mem_write_self _ _

/-- Witness for C7_create_success_naming at a concrete successful
create with the fresh title B. -/
theorem C7_witness :
    (createDomain { title := some "B", url := some "u2", description := some "x2", file := some { originalname := "b.xlsx" }, image := some { originalname := "j.png" } } exSt).1.status
      = some "success" :=
  (C7_create_success_naming exSt "B" "u2" "x2" { originalname := "b.xlsx" } { originalname := "j.png" }
    (by decide) (by decide) (by decide) (by decide)).1

/-- Claim C1 (amended): the update persistence step is keyed by the title
value supplied in the request rather than the domain current title.  On a
successful update without file replacement: when the request supplies the
domain current title (identifiers and titles pairwise distinct), the
document identified by the given id afterwards carries the merged url and
description; when the request omits the title, the filter matches no
document and the collection is unchanged although success is returned. -/
theorem C1_write_keyed_by_request_title (st : St) (req : UpdateReq) (i : String) (d : Domain)
    (hid : req.id = some i) (hvalid : isValidObjectId i = true)
    (hfound : findById st.db i = some d)
    (hids : (st.db.map Domain._id).Nodup) (htitles : (st.db.map Domain.title).Nodup)
    (hfile : req.file = none) (himage : req.image = none) :
    (updateDomain req st).1.status = some "success"
    ∧ (req.title = some d.title →
        findById (updateDomain req st).2.db i
          = some { d with url := jsOr req.url d.url, description := jsOr req.description d.description })
    ∧ (req.title = none → (updateDomain req st).2.db = st.db) := by
  have hine : i ≠ "" := by
    intro h
    rw [h] at hvalid
    exact absurd hvalid (by decide)
  have hfalsy : falsy req.id = false := by
    rw [hid]
    simp [falsy, hine]
  have hobj : getObjectId (req.id.getD "") = Except.ok i := by
    rw [hid]
    simp [getObjectId, hvalid]
  refine ⟨?_, ?_, ?_⟩
  · simp [updateDomain, hfile, himage, storeUpload, updateHandler, hfalsy, hobj, hfound, deleteOld]
  · intro htitle
    simp only [updateDomain, hfile, himage, storeUpload, updateHandler, hfalsy, hobj, hfound,
      deleteOld, Bool.false_eq_true, if_false, Bool.and_eq_true, Bool.false_and]
    rw [htitle]
    simp only [updateOneByTitle]
    rw [findById_updateFirst i d _ rfl st.db hids htitles hfound]
    simp [applySet, jsOr_some_self]
  · intro htitle
    simp [updateDomain, hfile, himage, storeUpload, updateHandler, hfalsy, hobj, hfound,
      deleteOld, htitle, updateOneByTitle]

/-- The update request of the C1 witness scenario: it supplies the
current title A together with a new description. -/
def c1wReq : UpdateReq := { id := some exId, title := some "A", description := some "d2" }

/-- Witness for C1_write_keyed_by_request_title: with the current title
supplied, the document with the given id carries the new description. -/
theorem C1_witness :
    findById (updateDomain c1wReq exSt).2.db exId = some { exDomain with description := "d2" } :=
  (C1_write_keyed_by_request_title exSt c1wReq exId exDomain rfl (by decide) (by decide)
    (by decide) (by decide) rfl rfl).2.1 rfl

/-- Claim C3 (amended): on an update of an existing domain that supplies
a new mapper file together with the domain current title (identifiers
and titles pairwise distinct): when the derived base names match, the
stored mapperFile_Url is left unchanged and the old file stays on disk;
when they differ and the old file exists on disk and is removable, the
document adopts the new fileName and path and the old file is removed
from disk.  When the request omits the title instead, the old file is
still deleted but no document is updated (see C3_counterexample). -/
theorem C3_mapper_replacement (st : St) (req : UpdateReq) (i : String) (d : Domain) (u : Upload)
    (hid : req.id = some i) (hvalid : isValidObjectId i = true)
    (hfound : findById st.db i = some d)
    (hids : (st.db.map Domain._id).Nodup) (htitles : (st.db.map Domain.title).Nodup)
    (hfile : req.file = some u) (himage : req.image = none)
    (htitle : req.title = some d.title) :
    (basename (d.title ++ "_" ++ u.originalname) (extname (d.title ++ "_" ++ u.originalname))
        = basename d.fileName (extname d.fileName) →
      (updateDomain req st).1.status = some "success"
      ∧ findById (updateDomain req st).2.db i
          = some { d with url := jsOr req.url d.url, description := jsOr req.description d.description }
      ∧ (d.mapperFile_Url ∈ st.disk → d.mapperFile_Url ∈ (updateDomain req st).2.disk))
    ∧ (basename (d.title ++ "_" ++ u.originalname) (extname (d.title ++ "_" ++ u.originalname))
        ≠ basename d.fileName (extname d.fileName) →
       d.mapperFile_Url ≠ "" → d.mapperFile_Url ∈ st.disk → d.mapperFile_Url ∉ st.locked →
       ("uploads/" ++ (d.title ++ "_" ++ u.originalname)) ≠ d.mapperFile_Url → st.disk.Nodup →
      (updateDomain req st).1.status = some "success"
      ∧ findById (updateDomain req st).2.db i
          = some { d with
                   url := jsOr req.url d.url
                   description := jsOr req.description d.description
                   fileName := basename (d.title ++ "_" ++ u.originalname) (extname (d.title ++ "_" ++ u.originalname))
                   mapperFile_Url := "uploads/" ++ (d.title ++ "_" ++ u.originalname) }
      ∧ d.mapperFile_Url ∉ (updateDomain req st).2.disk) := by
  have hine : i ≠ "" := by
    intro h
    rw [h] at hvalid
    exact absurd hvalid (by decide)
  have hfalsy : falsy req.id = false := by
    rw [hid]
    simp [falsy, hine]
  have hobj : getObjectId (req.id.getD "") = Except.ok i := by
    rw [hid]
    simp [getObjectId, hvalid]
  constructor
  · intro heq
    simp only [updateDomain, hfile, himage, storeUpload, updateHandler, hfalsy, hobj, hfound,
      htitle, storageFilename, jsString, Bool.false_eq_true, if_false]
    rw [if_pos heq]
    simp only [Bool.false_and, Bool.false_eq_true, if_false, deleteOld]
    refine ⟨trivial, ?_, ?_⟩
    · simp only [updateOneByTitle]
      rw [findById_updateFirst i d _ rfl st.db hids htitles hfound]
      simp [applySet, jsOr_some_self]
    · intro hmem
      exact mem_write_of_mem _ _ _ hmem
  · intro hne hmne hmem hlock hpne hnd
    have hbne : (d.mapperFile_Url != "") = true := by simp [hmne]
    have hmem2 : d.mapperFile_Url ∈
        (if "uploads/" ++ (d.title ++ "_" ++ u.originalname) ∈ st.disk then st.disk
         else ("uploads/" ++ (d.title ++ "_" ++ u.originalname)) :: st.disk) :=
      mem_write_of_mem _ _ _ hmem
    simp only [updateDomain, hfile, himage, storeUpload, updateHandler, hfalsy, hobj, hfound,
      htitle, storageFilename, jsString, Bool.false_eq_true, if_false]
    rw [if_neg hne]
    simp only [deleteOld, hbne, Bool.true_and, Bool.false_and, if_true]
    rw [if_pos hmem2, if_neg hlock]
    simp only [Bool.false_eq_true, if_false]
    refine ⟨trivial, ?_, ?_⟩
    · simp only [updateOneByTitle]
      rw [findById_updateFirst i d _ rfl st.db hids htitles hfound]
      simp [applySet, jsOr_some_self]
    · exact (nodup_write _ _ hnd).not_mem_erase

/-- The same-base-name update request of the C3 witness scenario. -/
def c3wReq : UpdateReq :=
  { id := some exId, title := some "A", file := some { originalname := "data.xlsx" } }

/-- Witness for C3_mapper_replacement: re-uploading a mapper file with
the same derived base name leaves the stored document unchanged. -/
theorem C3_witness :
    findById (updateDomain c3wReq exSt).2.db exId = some exDomain :=
  ((C3_mapper_replacement exSt c3wReq exId exDomain { originalname := "data.xlsx" }
    rfl (by decide) (by decide) (by decide) (by decide) rfl rfl rfl).1 (by decide)).2.1
/-- A deletion block whose old file is missing or unremovable aborts
with a failed response. -/
theorem deleteOld_fails (p : String) (failMsg missingMsg noun : String) (disk locked : List String)
    (h : p ∉ disk ∨ p ∈ locked) :
    ∃ resp : Response, deleteOld true p failMsg missingMsg noun disk locked = .error resp
      ∧ resp.status = some "failed" := by
  unfold deleteOld
  by_cases hd : p ∈ disk
  · have hl : p ∈ locked := by
      rcases h with h | h
      · exact absurd hd h
      · exact h
    rw [if_pos rfl, if_pos hd, if_pos hl]
    exact ⟨_, rfl, rfl⟩
  · rw [if_pos rfl, if_neg hd]
    exact ⟨_, rfl, rfl⟩

/-- A deletion block with a present, removable old file succeeds and
erases it from the uploads directory. -/
theorem deleteOld_succeeds (p : String) (failMsg missingMsg noun : String) (disk locked : List String)
    (hd : p ∈ disk) (hl : p ∉ locked) :
    deleteOld true p failMsg missingMsg noun disk locked = .ok (disk.erase p) := by
  unfold deleteOld
  rw [if_pos rfl, if_pos hd, if_neg hl]

/-- A deletion block that was not activated leaves the uploads alone. -/
theorem deleteOld_none (p failMsg missingMsg noun : String) (disk locked : List String) :
    deleteOld false p failMsg missingMsg noun disk locked = .ok disk := rfl

/-- The uploads directory right after the multer step of an update call. -/
def multerDisk (req : UpdateReq) (st : St) : List String :=
  (storeUpload req.title true req.image (storeUpload req.title false req.file st.disk).2).2

/-- updateDomain unfolded into the multer step plus the handler body. -/
theorem updateDomain_eq (req : UpdateReq) (st : St) :
    updateDomain req st = updateHandler req
      { file := (storeUpload req.title false req.file st.disk).1,
        image := (storeUpload req.title true req.image (storeUpload req.title false req.file st.disk).2).1 }
      { st with disk := multerDisk req st } := rfl

/-- Handler-level form of claim C4: when a superseded old file cannot be
deleted, the handler answers failure and leaves the collection alone. -/
theorem updateHandler_deletion_failure (st : St) (req : UpdateReq) (files : UpdateFiles)
    (i : String) (d : Domain)
    (hid : req.id = some i) (hvalid : isValidObjectId i = true)
    (hfound : findById st.db i = some d)
    (hfail :
      (∃ f, files.file = some f
        ∧ basename f.filename (extname f.filename) ≠ basename d.fileName (extname d.fileName)
        ∧ d.mapperFile_Url ≠ ""
        ∧ (d.mapperFile_Url ∉ st.disk ∨ d.mapperFile_Url ∈ st.locked))
      ∨ (∃ g, files.image = some g
        ∧ basename g.filename (extname g.filename) ≠ basename d.imagePath (extname d.imagePath)
        ∧ d.imagePath ≠ ""
        ∧ (d.imagePath ∉ st.disk ∨ d.imagePath ∈ st.locked))) :
    (updateHandler req files st).1.status = some "failed"
    ∧ (updateHandler req files st).2.db = st.db := by
  have hine : i ≠ "" := by
    intro h
    rw [h] at hvalid
    exact absurd hvalid (by decide)
  have hfalsy : falsy req.id = false := by
    rw [hid]
    simp [falsy, hine]
  have hobj : getObjectId (req.id.getD "") = Except.ok i := by
    rw [hid]
    simp [getObjectId, hvalid]
  rcases hfail with ⟨f, hff, hne, hmne, hfd⟩ | ⟨g, hfg, hne, hmne, hfd⟩
  · have hbne : (d.mapperFile_Url != "") = true := by simp [hmne]
    obtain ⟨resp, hresp, hstat⟩ :=
      deleteOld_fails d.mapperFile_Url "Error deleting old file." "Old file does not exist." "File" st.disk st.locked hfd
    simp only [updateHandler, hfalsy, hobj, hfound, Bool.false_eq_true, if_false, hff]
    rw [if_neg hne]
    simp only [hbne, Bool.true_and]
    rw [hresp]
    exact ⟨hstat, rfl⟩
  · have hbne : (d.imagePath != "") = true := by simp [hmne]
    obtain ⟨resp, hresp, hstat⟩ :=
      deleteOld_fails d.imagePath "Error deleting old image." "Old image does not exist." "Image" st.disk st.locked hfd
    cases hff : files.file with
    | none =>
      simp only [updateHandler, hfalsy, hobj, hfound, Bool.false_eq_true, if_false, hff, hfg,
        Bool.false_and, deleteOld_none]
      rw [if_neg hne]
      simp only [hbne, Bool.true_and]
      rw [hresp]
      exact ⟨hstat, rfl⟩
    | some f2 =>
      by_cases hc : basename f2.filename (extname f2.filename) = basename d.fileName (extname d.fileName)
      · simp only [updateHandler, hfalsy, hobj, hfound, Bool.false_eq_true, if_false, hff, hfg]
        rw [if_pos hc, if_neg hne]
        simp only [Bool.false_and, deleteOld_none, hbne, Bool.true_and]
        rw [hresp]
        exact ⟨hstat, rfl⟩
      · by_cases hfd2 : d.mapperFile_Url ∈ st.disk ∧ d.mapperFile_Url ∉ st.locked
        · -- the mapper deletion succeeds first, then the image deletion fails
          by_cases hm2 : d.mapperFile_Url ≠ ""
          · have hbne2 : (d.mapperFile_Url != "") = true := by simp [hm2]
            obtain ⟨resp2, hresp2, hstat2⟩ :=
              deleteOld_fails d.imagePath "Error deleting old image." "Old image does not exist." "Image"
                (st.disk.erase d.mapperFile_Url) st.locked
                (by
                  rcases hfd with hfd | hfd
                  · exact Or.inl (fun hmem => hfd (List.mem_of_mem_erase hmem))
                  · exact Or.inr hfd)
            simp only [updateHandler, hfalsy, hobj, hfound, Bool.false_eq_true, if_false, hff, hfg]
            rw [if_neg hc, if_neg hne]
            simp only [hbne2, Bool.true_and]
            rw [deleteOld_succeeds d.mapperFile_Url _ _ _ st.disk st.locked hfd2.1 hfd2.2]
            simp only [hbne, Bool.true_and]
            rw [hresp2]
            exact ⟨hstat2, rfl⟩
          · have hm3 : d.mapperFile_Url = "" := by
              by_contra hx
              exact hm2 hx
            have hbne2 : (d.mapperFile_Url != "") = false := by simp [hm3]
            simp only [updateHandler, hfalsy, hobj, hfound, Bool.false_eq_true, if_false, hff, hfg]
            rw [if_neg hc, if_neg hne]
            simp only [hbne2, Bool.and_false, deleteOld_none, hbne, Bool.true_and]
            rw [hresp]
            exact ⟨hstat, rfl⟩
        · -- the mapper deletion fails first: still a failure with no write
          obtain ⟨resp2, hresp2, hstat2⟩ :=
            deleteOld_fails d.mapperFile_Url "Error deleting old file." "Old file does not exist." "File" st.disk st.locked
              (by
                by_cases hdm : d.mapperFile_Url ∈ st.disk
                · exact Or.inr (by
                    by_contra hlk
                    exact hfd2 ⟨hdm, hlk⟩)
                · exact Or.inl hdm)
          by_cases hm2 : d.mapperFile_Url ≠ ""
          · have hbne2 : (d.mapperFile_Url != "") = true := by simp [hm2]
            simp only [updateHandler, hfalsy, hobj, hfound, Bool.false_eq_true, if_false, hff, hfg]
            rw [if_neg hc, if_neg hne]
            simp only [hbne2, Bool.true_and]
            rw [hresp2]
            exact ⟨hstat2, rfl⟩
          · have hm3 : d.mapperFile_Url = "" := by
              by_contra hx
              exact hm2 hx
            have hbne2 : (d.mapperFile_Url != "") = false := by simp [hm3]
            simp only [updateHandler, hfalsy, hobj, hfound, Bool.false_eq_true, if_false, hff, hfg]
            rw [if_neg hc, if_neg hne]
            simp only [hbne2, Bool.and_false, deleteOld_none, hbne, Bool.true_and]
            rw [hresp]
            exact ⟨hstat, rfl⟩

/-- Claim C4: on an update whose superseded old file (mapper file or
image) is missing from disk or unremovable, the handler returns a
failure result and the database write is never attempted, leaving the
stored collection unchanged. -/
theorem C4_deletion_failure_aborts (st : St) (req : UpdateReq) (i : String) (d : Domain)
    (hid : req.id = some i) (hvalid : isValidObjectId i = true)
    (hfound : findById st.db i = some d)
    (hfail :
      (∃ u, req.file = some u
        ∧ basename (storageFilename req.title false u) (extname (storageFilename req.title false u))
            ≠ basename d.fileName (extname d.fileName)
        ∧ d.mapperFile_Url ≠ ""
        ∧ (d.mapperFile_Url ∉ multerDisk req st ∨ d.mapperFile_Url ∈ st.locked))
      ∨ (∃ v, req.image = some v
        ∧ basename (storageFilename req.title true v) (extname (storageFilename req.title true v))
            ≠ basename d.imagePath (extname d.imagePath)
        ∧ d.imagePath ≠ ""
        ∧ (d.imagePath ∉ multerDisk req st ∨ d.imagePath ∈ st.locked))) :
    (updateDomain req st).1.status = some "failed"
    ∧ (updateDomain req st).2.db = st.db := by
  rw [updateDomain_eq]
  refine updateHandler_deletion_failure { st with disk := multerDisk req st } req
    { file := (storeUpload req.title false req.file st.disk).1,
      image := (storeUpload req.title true req.image (storeUpload req.title false req.file st.disk).2).1 }
    i d hid hvalid hfound ?_
  rcases hfail with ⟨u, hfu, hne, hmne, hfd⟩ | ⟨v, hfv, hne, hmne, hfd⟩
  · refine Or.inl ⟨⟨storageFilename req.title false u, "uploads/" ++ storageFilename req.title false u⟩, ?_, hne, hmne, hfd⟩
    rw [hfu]
    rfl
  · refine Or.inr ⟨⟨storageFilename req.title true v, "uploads/" ++ storageFilename req.title true v⟩, ?_, hne, hmne, hfd⟩
    rw [hfv]
    rfl

/-- The update request of the C4 witness scenario: a mapper replacement
whose old file is absent from disk. -/
def c4wReq : UpdateReq :=
  { id := some exId, title := some "A", file := some { originalname := "new.xlsx" } }

/-- The state of the C4 witness scenario: the stored mapper file is
missing from the uploads directory. -/
def c4wSt : St :=
  { db := [exDomain], disk := ["uploads/img.png"], locked := [], fresh := "ffffffffffffffffffffffff" }

/-- Witness for C4_deletion_failure_aborts at a concrete update whose
old mapper file is gone. -/
theorem C4_witness :
    (updateDomain c4wReq c4wSt).1.status = some "failed"
    ∧ (updateDomain c4wReq c4wSt).2.db = c4wSt.db :=
  C4_deletion_failure_aborts c4wSt c4wReq exId exDomain rfl (by decide) (by decide)
    (Or.inl ⟨{ originalname := "new.xlsx" }, rfl, by decide, by decide, Or.inl (by decide)⟩)
/-- A present, removable path is unlinked. -/
theorem tryUnlink_ok (p : String) (s : St) (h1 : p ∈ s.disk) (h2 : p ∉ s.locked) :
    tryUnlink p s = (true, { s with disk := s.disk.erase p }) := by
  unfold tryUnlink
  rw [if_pos (by simp [h1, h2])]

/-- A missing or unremovable path fails to unlink and leaves the state. -/
theorem tryUnlink_fails (p : String) (s : St) (h : p ∉ s.disk ∨ p ∈ s.locked) :
    tryUnlink p s = (false, s) := by
  unfold tryUnlink
  have hc : ¬((p ∈ s.disk && p ∉ s.locked) = true) := by
    simp only [Bool.and_eq_true, decide_eq_true_eq]
    rintro ⟨h1, h2⟩
    rcases h with h | h
    · exact h h1
    · exact h2 h
  rw [if_neg hc]

/-- Claim C8: deleteDomain attempts both file deletions first, collecting
per-file outcomes; if any deletion fails the call answers failure and
the document stays; only when both succeed is the document removed, after
which getDomain on that id answers the not-found failure.  The third
part shows the image deletion is still attempted (and its file removed)
even when the mapper file deletion has already failed. -/
theorem C8_delete_files_before_document (st : St) (i : String) (d : Domain)
    (hvalid : isValidObjectId i = true)
    (hfound : findById st.db i = some d)
    (hids : (st.db.map Domain._id).Nodup)
    (hnd : st.disk.Nodup)
    (hne : d.mapperFile_Url ≠ d.imagePath) :
    (d.mapperFile_Url ∈ st.disk → d.mapperFile_Url ∉ st.locked →
     d.imagePath ∈ st.disk → d.imagePath ∉ st.locked →
      deleteDomain i st = Except.ok
        ({ status := some "success", message := some "Domain and its associated files deleted successfully." },
         { st with db := removeFirst (fun x => x._id = i) st.db,
                   disk := (st.disk.erase d.mapperFile_Url).erase d.imagePath })
      ∧ findById (removeFirst (fun x => x._id = i) st.db) i = none
      ∧ (getDomain i { st with db := removeFirst (fun x => x._id = i) st.db,
                               disk := (st.disk.erase d.mapperFile_Url).erase d.imagePath }).map
            (fun r => r.1)
          = Except.ok { status := some "failed", message := some "domain not found with the given id." })
    ∧ ((d.mapperFile_Url ∉ st.disk ∨ d.mapperFile_Url ∈ st.locked)
        ∨ (d.imagePath ∉ st.disk ∨ d.imagePath ∈ st.locked) →
      (deleteDomain i st).map (fun r => (r.1.status, r.2.db))
        = Except.ok (some "failed", st.db))
    ∧ (d.mapperFile_Url ∉ st.disk → d.imagePath ∈ st.disk → d.imagePath ∉ st.locked →
      (deleteDomain i st).map (fun r => (r.1.status, r.2.db, decide (d.imagePath ∈ r.2.disk)))
        = Except.ok (some "failed", st.db, false)) := by
  have hobj : getObjectId i = Except.ok i := by simp [getObjectId, hvalid]
  refine ⟨?_, ?_, ?_⟩
  · intro hA hAl hB hBl
    have e1 := tryUnlink_ok d.mapperFile_Url st hA hAl
    have hB1 : d.imagePath ∈ (st.disk.erase d.mapperFile_Url) :=
      (List.mem_erase_of_ne (Ne.symm hne)).mpr hB
    have e2 := tryUnlink_ok d.imagePath { st with disk := st.disk.erase d.mapperFile_Url } hB1 hBl
    refine ⟨?_, findById_removeFirst i st.db hids, ?_⟩
    · simp [deleteDomain, hobj, hfound, deleteFiles, deleteFilesStep, e1, e2]
    · simp [getDomain, hobj, findById_removeFirst i st.db hids, Except.map]
  · intro hfail
    rcases hfail with hfm | hfi
    · have e1 := tryUnlink_fails d.mapperFile_Url st hfm
      by_cases hBc : d.imagePath ∈ st.disk ∧ d.imagePath ∉ st.locked
      · have e2 := tryUnlink_ok d.imagePath st hBc.1 hBc.2
        simp [deleteDomain, hobj, hfound, deleteFiles, deleteFilesStep, e1, e2, Except.map]
      · have e2 := tryUnlink_fails d.imagePath st (by
          by_cases hm : d.imagePath ∈ st.disk
          · exact Or.inr (by
              by_contra hlk
              exact hBc ⟨hm, hlk⟩)
          · exact Or.inl hm)
        simp [deleteDomain, hobj, hfound, deleteFiles, deleteFilesStep, e1, e2, Except.map]
    · by_cases hAc : d.mapperFile_Url ∈ st.disk ∧ d.mapperFile_Url ∉ st.locked
      · have e1 := tryUnlink_ok d.mapperFile_Url st hAc.1 hAc.2
        have e2 := tryUnlink_fails d.imagePath
          { st with disk := st.disk.erase d.mapperFile_Url } (by
            rcases hfi with h | h
            · exact Or.inl (fun hmem => h (List.mem_of_mem_erase hmem))
            · exact Or.inr h)
        simp [deleteDomain, hobj, hfound, deleteFiles, deleteFilesStep, e1, e2, Except.map]
      · have e1 := tryUnlink_fails d.mapperFile_Url st (by
          by_cases hm : d.mapperFile_Url ∈ st.disk
          · exact Or.inr (by
              by_contra hlk
              exact hAc ⟨hm, hlk⟩)
          · exact Or.inl hm)
        have e2 := tryUnlink_fails d.imagePath st hfi
        simp [deleteDomain, hobj, hfound, deleteFiles, deleteFilesStep, e1, e2, Except.map]
  · intro hm hB hBl
    have e1 := tryUnlink_fails d.mapperFile_Url st (Or.inl hm)
    have e2 := tryUnlink_ok d.imagePath st hB hBl
    have hnm : d.imagePath ∉ st.disk.erase d.imagePath := hnd.not_mem_erase
    simp [deleteDomain, hobj, hfound, deleteFiles, deleteFilesStep, e1, e2, Except.map, hnm]

/-- Witness for C8_delete_files_before_document at the concrete stored
domain with both files present and removable. -/
theorem C8_witness :
    deleteDomain exId exSt = Except.ok
      ({ status := some "success", message := some "Domain and its associated files deleted successfully." },
       { exSt with db := removeFirst (fun x => x._id = exId) exSt.db,
                   disk := (exSt.disk.erase exDomain.mapperFile_Url).erase exDomain.imagePath }) :=
  ((C8_delete_files_before_document exSt exId exDomain (by decide) (by decide) (by decide)
    (by decide) (by decide)).1 (by decide) (by decide) (by decide) (by decide)).1
/-- jsOr with a supplied empty string is the jsOr of an absent field. -/
theorem jsOr_empty : jsOr (some "") = jsOr none := by
  funext s
  simp [jsOr]

/-- jsOr preserves nonemptiness of the fallback. -/
theorem jsOr_ne_empty (x : Option String) (s : String) (h : s ≠ "") : jsOr x s ≠ "" :=
  fun he => h (jsOr_eq_empty x s he)

/-- getObjectId answers with the very string it parsed. -/
theorem getObjectId_ok (s o : String) (h : getObjectId s = Except.ok o) : o = s := by
  unfold getObjectId at h
  split at h
  · injection h with h
    exact h.symm
  · cases h

/-- With no blank-titled document stored, the updateOne filtered by an
empty title matches nothing, exactly like an absent title filter. -/
theorem updateOneByTitle_empty (db : List Domain) (ud : UpdatedData)
    (h : ∀ d ∈ db, d.title ≠ "") :
    updateOneByTitle db (some "") ud = updateOneByTitle db none ud := by
  simp only [updateOneByTitle]
  exact updateFirst_of_forall_false _ _ db (fun x hx => by simp [h x hx])

/-- Every document of the updated collection is an original document or
the applySet image of one. -/
theorem mem_updateOneByTitle (db : List Domain) (t : Option String) (ud : UpdatedData)
    (x : Domain) (hx : x ∈ updateOneByTitle db t ud) :
    x ∈ db ∨ ∃ y, y ∈ db ∧ x = applySet y ud := by
  match t with
  | none => exact Or.inl hx
  | some s => exact mem_updateFirst _ _ db x hx

/-- The update handler either leaves the collection alone or applies a
title-keyed updateOne whose set document carries the three jsOr-merged
text fields of the domain found by id. -/
theorem updateHandler_db_cases (req : UpdateReq) (fs : UpdateFiles) (st : St) :
    (updateHandler req fs st).2.db = st.db
    ∨ ∃ dom ud, findById st.db (req.id.getD "") = some dom
        ∧ ud.title = jsOr req.title dom.title
        ∧ ud.url = jsOr req.url dom.url
        ∧ ud.description = jsOr req.description dom.description
        ∧ (updateHandler req fs st).2.db = updateOneByTitle st.db req.title ud := by
  unfold updateHandler
  split
  · exact Or.inl rfl
  · split
    · exact Or.inl rfl
    · next oid heq =>
      have hoid : oid = req.id.getD "" := getObjectId_ok _ _ heq
      split
      · exact Or.inl rfl
      · next dom hfind =>
        dsimp only
        repeat' split
        all_goals
          first
          | exact Or.inl rfl
          | exact Or.inr ⟨dom, _, by rw [← hoid]; exact hfind, rfl, rfl, rfl, rfl⟩

/-- Claim C10: in the update handler, a title, url, or description field
supplied as the empty string behaves exactly like an omitted field
(under the data-model invariant that stored text fields are nonempty),
the prior stored values are retained, and no update can leave any stored
document with an empty title, url, or description. -/
theorem C10_falsy_fields_like_omitted (idf ttl urlf dscf : Option String)
    (fo fi : Option Upload) (fs : UpdateFiles) (st : St)
    (hinv : ∀ d ∈ st.db, d.title ≠ "" ∧ d.url ≠ "" ∧ d.description ≠ "") :
    updateHandler ⟨idf, some "", urlf, dscf, fo, fi⟩ fs st
        = updateHandler ⟨idf, none, urlf, dscf, fo, fi⟩ fs st
    ∧ updateHandler ⟨idf, ttl, some "", dscf, fo, fi⟩ fs st
        = updateHandler ⟨idf, ttl, none, dscf, fo, fi⟩ fs st
    ∧ updateHandler ⟨idf, ttl, urlf, some "", fo, fi⟩ fs st
        = updateHandler ⟨idf, ttl, urlf, none, fo, fi⟩ fs st
    ∧ ∀ d2 ∈ (updateHandler ⟨idf, ttl, urlf, dscf, fo, fi⟩ fs st).2.db,
        d2.title ≠ "" ∧ d2.url ≠ "" ∧ d2.description ≠ "" := by
  have hT : ∀ ud : UpdatedData,
      updateOneByTitle st.db (some "") ud = updateOneByTitle st.db none ud :=
    fun ud => updateOneByTitle_empty st.db ud (fun d hd => (hinv d hd).1)
  refine ⟨?_, ?_, ?_, ?_⟩
  · simp only [updateHandler, jsOr_empty, hT]
  · simp only [updateHandler, jsOr_empty]
  · simp only [updateHandler, jsOr_empty]
  · intro d2 hd2
    rcases updateHandler_db_cases ⟨idf, ttl, urlf, dscf, fo, fi⟩ fs st with
      hdb | ⟨dom, ud, hfind, ht, hu, hd, hdb⟩
    · rw [hdb] at hd2
      exact hinv d2 hd2
    · rw [hdb] at hd2
      rcases mem_updateOneByTitle st.db ttl ud d2 hd2 with h | ⟨y, hy, hyd⟩
      · exact hinv d2 h
      · have hdom : dom ∈ st.db := findById_mem _ _ _ hfind
        subst hyd
        refine ⟨?_, ?_, ?_⟩
        · show (applySet y ud).title ≠ ""
          simp only [applySet]
          rw [ht]
          exact jsOr_ne_empty _ _ (hinv dom hdom).1
        · show (applySet y ud).url ≠ ""
          simp only [applySet]
          rw [hu]
          exact jsOr_ne_empty _ _ (hinv dom hdom).2.1
        · show (applySet y ud).description ≠ ""
          simp only [applySet]
          rw [hd]
          exact jsOr_ne_empty _ _ (hinv dom hdom).2.2

/-- Witness for C10_falsy_fields_like_omitted: an empty-string title
behaves like an omitted title on the concrete stored state. -/
theorem C10_witness :
    updateHandler ⟨some exId, some "", some "u2", none, none, none⟩ ⟨none, none⟩ exSt
      = updateHandler ⟨some exId, none, some "u2", none, none, none⟩ ⟨none, none⟩ exSt :=
  (C10_falsy_fields_like_omitted (some exId) none (some "u2") none none none
    ⟨none, none⟩ exSt (by decide)).1
